import Mathlib

/-!
Verification of the `agui_cli` client core (`src/agui_cli/client.py`).

This file shallowly embeds the parts of `AgUIClient` that the checked
properties are about:

* the WebSocket frame codec: payload masking (`_send_websocket_frame`,
  `_recv_websocket_messages`) and the 7-bit / 16-bit / 64-bit payload
  length field;
* the WebSocket driver loop (`_stream_websocket`), as a function over an
  explicit model of the socket world, tracking which frames are sent,
  which payloads are yielded, and whether the socket got closed;
* the HTTP streaming driver line processing (`_stream_http`);
* the message normalizer (`_normalize_message`), together with models of
  `json.loads`, `json.dumps` (default separators), Python `str()`, Python
  truthiness and the `or` chains used for field selection;
* the URL-scheme dispatch in `stream`.

Bytes are modelled as `Nat` (the Python values are always in `0..255`;
where a property needs the bound it is stated explicitly). Machine-level
concerns (TLS, timeouts, actual socket I/O) are abstracted into explicit
world/outcome data.
-/

/-! ## Frame codec: masking

`_send_websocket_frame` masks an outbound payload with a 4-byte key:
`bytes(b ^ mask_key[i % 4] for i, b in enumerate(payload))`, and
`_recv_websocket_messages` unmasks an inbound payload with the exact same
expression. We embed the shared expression once. -/

/-- A 4-byte WebSocket mask key (`mask_key = os.urandom(4)` on the send
side, `mask_key = self._recv_exact(sock, 4)` on the receive side). -/
structure MaskKey where
  b0 : Nat
  b1 : Nat
  b2 : Nat
  b3 : Nat

/-- `mask_key[i % 4]`. -/
def MaskKey.byteAt (k : MaskKey) (i : Nat) : Nat :=
  match i % 4 with
  | 0 => k.b0
  | 1 => k.b1
  | 2 => k.b2
  | _ => k.b3

/-- `bytes(b ^ mask_key[i % 4] for i, b in enumerate(payload))`, with the
enumeration starting at index `i`. -/
def maskFrom (k : MaskKey) (i : Nat) : List Nat → List Nat
  | [] => []
  | b :: bs => (b ^^^ k.byteAt i) :: maskFrom k (i + 1) bs

/-- Masking as done by the frame encoder and decoder (enumeration starts
at 0). -/
def maskPayload (k : MaskKey) (payload : List Nat) : List Nat :=
  maskFrom k 0 payload

/-! ## Frame codec: payload length field

Encoder (`_send_websocket_frame`):

    if length < 126:        header.append((0x80 if mask else 0x00) | length)
    elif length < (1<<16):  header.append(… | 126); header.extend(length.to_bytes(2,"big"))
    else:                   header.append(… | 127); header.extend(length.to_bytes(8,"big"))

Decoder (`_recv_websocket_messages`):

    length = second & 0x7F
    if length == 126: length = int.from_bytes(recv_exact(2), "big")
    elif length == 127: length = int.from_bytes(recv_exact(8), "big")
-/

/-- `L.to_bytes(n, "big")`: `n` bytes, big-endian. (Python raises
`OverflowError` when `L ≥ 256^n`; every use below is guarded by that
bound, under which this definition agrees with Python.) -/
def toBytesBE : Nat → Nat → List Nat
  | 0, _ => []
  | n + 1, L => toBytesBE n (L / 256) ++ [L % 256]

/-- `int.from_bytes(bytes, "big")`. -/
def fromBytesBE (bs : List Nat) : Nat :=
  bs.foldl (fun acc b => acc * 256 + b) 0

/-- The length field emitted by `_send_websocket_frame` for a payload of
length `L`: the second header byte (mask bit ored in) followed by the
extended-length bytes, if any. -/
def encodeLenField (mask : Bool) (L : Nat) : List Nat :=
  let m : Nat := if mask then 0x80 else 0x00
  if L < 126 then
    [m ||| L]
  else if L < 2 ^ 16 then
    (m ||| 126) :: toBytesBE 2 L
  else
    (m ||| 127) :: toBytesBE 8 L

/-- The length decoded by `_recv_websocket_messages` from the byte stream
starting at the second header byte (`none` models `_recv_exact` raising
`ConnectionError` because the stream ended early). -/
def decodeLenField (bytes : List Nat) : Option Nat :=
  match bytes with
  | [] => none
  | second :: rest =>
    let base := second &&& 0x7F
    if base = 126 then
      if rest.length < 2 then none else some (fromBytesBE (rest.take 2))
    else if base = 127 then
      if rest.length < 8 then none else some (fromBytesBE (rest.take 8))
    else
      some base

/-- The three length-field variants of RFC 6455 as used by the code. -/
inductive LenVariant where
  | b7
  | b16
  | b64
deriving DecidableEq

/-- Number of extended-length bytes each variant adds after the second
header byte. -/
def LenVariant.extBytes : LenVariant → Nat
  | .b7 => 0
  | .b16 => 2
  | .b64 => 8

/-- Which lengths each variant can represent: the 7-bit field holds
`0..125` (126 and 127 are escape values), the extended fields hold 16-
and 64-bit values. -/
def LenVariant.canRepresent : LenVariant → Nat → Prop
  | .b7, L => L < 126
  | .b16, L => L < 2 ^ 16
  | .b64, L => L < 2 ^ 64

/-- The variant `_send_websocket_frame` selects for a payload of length
`L` (read off the branch structure of the encoder). -/
def chosenVariant (L : Nat) : LenVariant :=
  if L < 126 then .b7 else if L < 2 ^ 16 then .b16 else .b64

/-! ## JSON values

`_normalize_message` works on the result of `json.loads`. We model JSON
values with integer numerics (every numeric literal in the verified
payloads is an integer; float payloads are outside this model and the
parser below rejects them). Python maps JSON `null` to `None`; the
embedding keeps a single `null` constructor for both. -/

/-- A decoded JSON value (`JsonValue` in `client.py`). Objects are
insertion-ordered key/value lists, as Python dicts are. -/
inductive JVal where
  | null
  | bool (b : Bool)
  | num (n : Int)
  | str (s : String)
  | arr (xs : List JVal)
  | obj (kvs : List (String × JVal))

/-- First binding of a key in an object (keys are unique in any object
produced by the parser below, as in a Python dict). -/
def lookupKey : List (String × JVal) → String → Option JVal
  | [], _ => none
  | (k, v) :: rest, key => if k = key then some v else lookupKey rest key

/-- `parsed.get(key)`: Python returns `None` for a missing key, and JSON
`null` decodes to `None` as well, so both map to `JVal.null`. -/
def pyGet (kvs : List (String × JVal)) (key : String) : JVal :=
  (lookupKey kvs key).getD .null

/-- Python truthiness on decoded JSON values: `None`, `False`, `0`, `""`,
`[]` and `{}` are falsy, everything else truthy. -/
def truthy : JVal → Bool
  | .null => false
  | .bool b => b
  | .num n => n != 0
  | .str s => s != ""
  | .arr xs => !xs.isEmpty
  | .obj kvs => !kvs.isEmpty

/-- Python `a or b` on decoded values: `a` if truthy, else `b`. -/
def pyOr (a b : JVal) : JVal :=
  if truthy a then a else b

/-- `parsed.get("user") or parsed.get("sender") or parsed.get("name") or
parsed.get("role")` from `_normalize_message`. -/
def speakerOf (kvs : List (String × JVal)) : JVal :=
  pyOr (pyOr (pyOr (pyGet kvs "user") (pyGet kvs "sender")) (pyGet kvs "name"))
    (pyGet kvs "role")

/-- `parsed.get("message") or parsed.get("content") or parsed.get("text")
or parsed.get("body")` from `_normalize_message`. -/
def bodyChainOf (kvs : List (String × JVal)) : JVal :=
  pyOr (pyOr (pyOr (pyGet kvs "message") (pyGet kvs "content")) (pyGet kvs "text"))
    (pyGet kvs "body")

/-- `isinstance(body, (dict, list))`. -/
def isStructured : JVal → Bool
  | .obj _ => true
  | .arr _ => true
  | _ => false

/-! ## `json.dumps` (default separators, `ensure_ascii=False`)

The code serializes with `json.dumps(..., ensure_ascii=False)` and the
default separators, i.e. single-line output with `", "` between items
and `": "` after keys. -/

/-- Hex digit for string escapes. -/
def hexDigit (n : Nat) : String :=
  match n with
  | 0 => "0" | 1 => "1" | 2 => "2" | 3 => "3" | 4 => "4"
  | 5 => "5" | 6 => "6" | 7 => "7" | 8 => "8" | 9 => "9"
  | 10 => "a" | 11 => "b" | 12 => "c" | 13 => "d" | 14 => "e" | _ => "f"

/-- JSON string escaping as `json.dumps` does with `ensure_ascii=False`:
quote, backslash and control characters are escaped, everything else is
emitted as-is. -/
def jsonEscapeChar (c : Char) : String :=
  if c = '"' then "\\\""
  else if c = '\\' then "\\\\"
  else if c = '\n' then "\\n"
  else if c = '\r' then "\\r"
  else if c = '\t' then "\\t"
  else if c = '\x08' then "\\b"
  else if c = '\x0c' then "\\f"
  else if c.toNat < 0x20 then
    "\\u00" ++ hexDigit (c.toNat / 16) ++ hexDigit (c.toNat % 16)
  else String.singleton c

/-- A JSON string literal. -/
def jsonQuote (s : String) : String :=
  "\"" ++ String.join (s.toList.map jsonEscapeChar) ++ "\""

mutual

/-- `json.dumps(v, ensure_ascii=False)` with the default separators. -/
def dumps : JVal → String
  | .null => "null"
  | .bool true => "true"
  | .bool false => "false"
  | .num n => toString n
  | .str s => jsonQuote s
  | .arr xs => "[" ++ dumpsItems xs ++ "]"
  | .obj kvs => "\x7b" ++ dumpsMembers kvs ++ "\x7d"

/-- Array items joined by `", "`. -/
def dumpsItems : List JVal → String
  | [] => ""
  | [x] => dumps x
  | x :: y :: rest => dumps x ++ ", " ++ dumpsItems (y :: rest)

/-- Object members joined by `", "`, keys separated by `": "`. -/
def dumpsMembers : List (String × JVal) → String
  | [] => ""
  | [(k, v)] => jsonQuote k ++ ": " ++ dumps v
  | (k, v) :: m :: rest => jsonQuote k ++ ": " ++ dumps v ++ ", " ++ dumpsMembers (m :: rest)

end

mutual

/-- Python `str()` on a decoded JSON value (exact for the value shapes
the normalizer ever formats: `None`, booleans, ints, strings, and
containers of those whose strings need no escaping). -/
def pyStr : JVal → String
  | .null => "None"
  | .bool true => "True"
  | .bool false => "False"
  | .num n => toString n
  | .str s => s
  | .arr xs => "[" ++ pyReprItems xs ++ "]"
  | .obj kvs => "\x7b" ++ pyReprMembers kvs ++ "\x7d"

/-- Python `repr()` (used by `str()` on container elements). -/
def pyRepr : JVal → String
  | .null => "None"
  | .bool true => "True"
  | .bool false => "False"
  | .num n => toString n
  | .str s => "\x27" ++ s ++ "\x27"
  | .arr xs => "[" ++ pyReprItems xs ++ "]"
  | .obj kvs => "\x7b" ++ pyReprMembers kvs ++ "\x7d"

/-- List elements joined by `", "`. -/
def pyReprItems : List JVal → String
  | [] => ""
  | [x] => pyRepr x
  | x :: y :: rest => pyRepr x ++ ", " ++ pyReprItems (y :: rest)

/-- Dict entries joined by `", "`. -/
def pyReprMembers : List (String × JVal) → String
  | [] => ""
  | [(k, v)] => "\x27" ++ k ++ "\x27: " ++ pyRepr v
  | (k, v) :: m :: rest =>
      "\x27" ++ k ++ "\x27: " ++ pyRepr v ++ ", " ++ pyReprMembers (m :: rest)

end

/-! ## `json.loads`

A recursive-descent JSON parser with explicit fuel, modelling the
behaviour of `json.loads` on the document subset this client exchanges
(objects, arrays, strings, integer numbers, `true`, `false`, `null`;
documents containing float literals are rejected rather than parsed).
`none` models `json.JSONDecodeError`. -/

/-- JSON whitespace accepted between tokens. -/
def jsonWsChar (c : Char) : Bool :=
  c = ' ' || c = '\t' || c = '\n' || c = '\r'

/-- Skip JSON whitespace. -/
def skipWs (cs : List Char) : List Char :=
  cs.dropWhile jsonWsChar

/-- One hex digit of a `\uXXXX` escape. -/
def hexVal (c : Char) : Option Nat :=
  if '0' ≤ c ∧ c ≤ '9' then some (c.toNat - '0'.toNat)
  else if 'a' ≤ c ∧ c ≤ 'f' then some (c.toNat - 'a'.toNat + 10)
  else if 'A' ≤ c ∧ c ≤ 'F' then some (c.toNat - 'A'.toNat + 10)
  else none

/-- The single-character string escapes of JSON. -/
def escChar (e : Char) : Option Char :=
  if e = '"' then some '"'
  else if e = '\\' then some '\\'
  else if e = '/' then some '/'
  else if e = 'n' then some '\n'
  else if e = 't' then some '\t'
  else if e = 'r' then some '\r'
  else if e = 'b' then some '\x08'
  else if e = 'f' then some '\x0c'
  else none

/-- Parse the body of a JSON string literal (after the opening quote),
returning the string and the remaining input. -/
def parseJString : List Char → Option (String × List Char)
  | [] => none
  | '"' :: rest => some ("", rest)
  | '\\' :: 'u' :: a :: b :: c :: d :: rest =>
      (match hexVal a, hexVal b, hexVal c, hexVal d with
       | some ha, some hb, some hc, some hd =>
           let n := ((ha * 16 + hb) * 16 + hc) * 16 + hd
           if n < 0xd800 ∨ (0xe000 ≤ n ∧ n < 0x110000) then
             match parseJString rest with
             | some (s, rs2) => some (String.singleton (Char.ofNat n) ++ s, rs2)
             | none => none
           else none
       | _, _, _, _ => none)
  | '\\' :: e :: rest =>
      (match escChar e with
       | some c =>
           match parseJString rest with
           | some (s, rs2) => some (String.singleton c ++ s, rs2)
           | none => none
       | none => none)
  | c :: rest =>
      match parseJString rest with
      | some (s, rs2) => some (String.singleton c ++ s, rs2)
      | none => none

/-- Decimal digit test. -/
def isDigitChar (c : Char) : Bool := '0' ≤ c && c ≤ '9'

/-- Digits to a number. -/
def digitsToNat (ds : List Char) : Nat :=
  ds.foldl (fun acc c => acc * 10 + (c.toNat - '0'.toNat)) 0

/-- Parse an integer JSON number. A number continuing with `.`, `e` or
`E` is a float literal, outside this model: the parser rejects the whole
document rather than mis-reading it. -/
def parseNumber (cs : List Char) : Option (JVal × List Char) :=
  let (neg, cs1) :=
    match cs with
    | '-' :: rest => (true, rest)
    | _ => (false, cs)
  let ds := cs1.takeWhile isDigitChar
  let rest := cs1.dropWhile isDigitChar
  if ds.isEmpty then none
  else
    match rest with
    | '.' :: _ => none
    | 'e' :: _ => none
    | 'E' :: _ => none
    | _ =>
        let n : Int := Int.ofNat (digitsToNat ds)
        some (.num (if neg then -n else n), rest)

/-- Insert a parsed object member: Python dicts keep the first position
of a repeated key and overwrite its value. -/
def objUpsert (kvs : List (String × JVal)) (k : String) (v : JVal) :
    List (String × JVal) :=
  if (lookupKey kvs k).isSome then
    kvs.map (fun p => if p.1 = k then (k, v) else p)
  else
    kvs ++ [(k, v)]

mutual

/-- Parse one JSON value (leading whitespace allowed). -/
def parseValue : Nat → List Char → Option (JVal × List Char)
  | 0, _ => none
  | fuel + 1, cs =>
    match skipWs cs with
    | [] => none
    | '\x7b' :: rest =>
        (match skipWs rest with
         | '\x7d' :: rest2 => some (.obj [], rest2)
         | rest2 => parseMembers fuel rest2 [])
    | '[' :: rest =>
        (match skipWs rest with
         | ']' :: rest2 => some (.arr [], rest2)
         | rest2 => parseItems fuel rest2 [])
    | '"' :: rest =>
        (match parseJString rest with
         | some (s, rest2) => some (.str s, rest2)
         | none => none)
    | 'n' :: 'u' :: 'l' :: 'l' :: rest => some (.null, rest)
    | 't' :: 'r' :: 'u' :: 'e' :: rest => some (.bool true, rest)
    | 'f' :: 'a' :: 'l' :: 's' :: 'e' :: rest => some (.bool false, rest)
    | cs2 => parseNumber cs2

/-- Parse the members of an object after its opening brace (at least
one member present). -/
def parseMembers : Nat → List Char → List (String × JVal) →
    Option (JVal × List Char)
  | 0, _, _ => none
  | fuel + 1, cs, acc =>
    match skipWs cs with
    | '"' :: rest =>
        (match parseJString rest with
         | none => none
         | some (k, rest2) =>
             match skipWs rest2 with
             | ':' :: rest3 =>
                 (match parseValue fuel rest3 with
                  | none => none
                  | some (v, rest4) =>
                      let acc2 := objUpsert acc k v
                      match skipWs rest4 with
                      | ',' :: rest5 => parseMembers fuel rest5 acc2
                      | '\x7d' :: rest5 => some (.obj acc2, rest5)
                      | _ => none)
             | _ => none)
    | _ => none

/-- Parse the items of an array after its opening bracket (at least one
item present). -/
def parseItems : Nat → List Char → List JVal → Option (JVal × List Char)
  | 0, _, _ => none
  | fuel + 1, cs, acc =>
    match parseValue fuel cs with
    | none => none
    | some (v, rest) =>
        match skipWs rest with
        | ',' :: rest2 => parseItems fuel rest2 (acc ++ [v])
        | ']' :: rest2 => some (.arr (acc ++ [v]), rest2)
        | _ => none

end

/-- `json.loads(raw_text)`: parse one document, allow surrounding
whitespace, reject trailing garbage. The fuel `2 * length + 2` dominates
the recursion depth, which consumes at least one input character every
two nested calls. -/
def loads (s : String) : Option JVal :=
  match parseValue (2 * s.length + 2) s.toList with
  | some (v, rest) => if skipWs rest = [] then some v else none
  | none => none

/-! ## The message normalizer (`_normalize_message`) -/

/-- A normalized message (`AgUIMessage` in `client.py`): the display
text and the decoded raw value (the original string when decoding
failed). -/
structure AgUIMessage where
  text : String
  raw : JVal

/-- The body after the `None` check and the structured-value
re-serialization:

    if body is None: body = json.dumps(parsed, ensure_ascii=False)
    elif isinstance(body, (dict, list)): body = json.dumps(body, ensure_ascii=False)
-/
def resolvedBody (kvs : List (String × JVal)) : JVal :=
  match bodyChainOf kvs with
  | .null => .str (dumps (.obj kvs))
  | b => if isStructured b then .str (dumps b) else b

/-- `f"{prefix}: {body}" if prefix else str(body)`. -/
def fmtText (speaker body : JVal) : String :=
  if truthy speaker then pyStr speaker ++ ": " ++ pyStr body else pyStr body

/-- `_normalize_message` on an already-decoded value. -/
def normalizeParsed : JVal → AgUIMessage
  | .obj kvs => ⟨fmtText (speakerOf kvs) (resolvedBody kvs), .obj kvs⟩
  | v => ⟨pyStr v, v⟩

/-- `_normalize_message(raw_text)`: parse, fall back to the raw string
on `JSONDecodeError`. -/
def normalizeMessage (raw_text : String) : AgUIMessage :=
  match loads raw_text with
  | none => ⟨raw_text, .str raw_text⟩
  | some v => normalizeParsed v

/-! ## HTTP driver line processing (`_stream_http`)

    for raw_line in resp:
        line = raw_line.decode(errors="replace").strip()
        if not line:
            continue
        if line.startswith("data:"):
            line = line[len("data:"):].strip()
        yield self._normalize_message(line)

Response lines are modelled as the already-decoded strings. -/

/-- The characters Python `str.strip()` removes (ASCII whitespace). -/
def isPySpace (c : Char) : Bool :=
  c = ' ' || c = '\t' || c = '\n' || c = '\r' || c = '\x0b' || c = '\x0c'

/-- Python `str.strip()`. -/
def pyStrip (s : String) : String :=
  String.mk (((s.toList.dropWhile isPySpace).reverse.dropWhile isPySpace).reverse)

/-- Character-list prefix test (`a.startswith(b)` in list form). -/
def leadMatch : List Char → List Char → Bool
  | [], _ => true
  | _ :: _, [] => false
  | a :: as, b :: bs => a == b && leadMatch as bs

/-- `line.startswith(pre)`. -/
def strStartsWith (line pre : String) : Bool :=
  leadMatch pre.toList line.toList

/-- `line[n:]`. -/
def strDrop (line : String) (n : Nat) : String :=
  String.mk (line.toList.drop n)

/-- One iteration of the HTTP driver loop body: `none` when the line is
skipped, otherwise the yielded message. -/
def processLine (raw_line : String) : Option AgUIMessage :=
  let line := pyStrip raw_line
  if line = "" then none
  else
    let line2 := if strStartsWith line "data:" then pyStrip (strDrop line 5) else line
    some (normalizeMessage line2)

/-- The whole messages sequence the HTTP driver produces from its
response lines. -/
def processLines (lines : List String) : List AgUIMessage :=
  lines.filterMap processLine

/-! ## URL scheme dispatch (`stream`)

    parsed = urlparse(self.server_url)
    if parsed.scheme in {"ws", "wss"}:      yield from self._stream_websocket(...)
    elif parsed.scheme in {"http", "https"}: yield from self._stream_http(...)
    else: raise ValueError(...)

Only the two driver branches ever touch the network; the `ValueError`
branch raises before any I/O. `urlparse` extracts the scheme as the
lowercased text before the first `:` when it is a letter followed by
letters, digits, `+`, `-` or `.`, and `""` otherwise. -/

/-- Characters allowed in a URL scheme after the leading letter. -/
def schemeChar (c : Char) : Bool :=
  c.isAlpha || c.isDigit || c = '+' || c = '-' || c = '.'

/-- Split at the first `:`, if any. -/
def splitAtColon : List Char → Option (List Char × List Char)
  | [] => none
  | c :: cs =>
      if c = ':' then some ([], cs)
      else
        match splitAtColon cs with
        | some (a, b) => some (c :: a, b)
        | none => none

/-- `urlparse(url).scheme`. -/
def extractScheme (url : String) : String :=
  match splitAtColon url.toList with
  | some (before, _) =>
      match before with
      | [] => ""
      | c :: _ =>
          if c.isAlpha && before.all schemeChar then
            String.mk (before.map Char.toLower)
          else ""
  | none => ""

/-- What `stream` decides to do, by scheme. -/
inductive DispatchAction where
  | websocket
  | http
  | configError
deriving DecidableEq

/-- The dispatch in `stream`. -/
def streamDispatch (url : String) : DispatchAction :=
  let scheme := extractScheme url
  if scheme = "ws" ∨ scheme = "wss" then .websocket
  else if scheme = "http" ∨ scheme = "https" then .http
  else .configError

/-- Sockets opened by each branch of `stream` before it first returns or
raises: both drivers connect, the `ValueError` branch performs no I/O at
all. -/
def socketsOpened : DispatchAction → Nat
  | .websocket => 1
  | .http => 1
  | .configError => 0

/-! ## WebSocket driver (`_stream_websocket`)

    sock = socket.create_connection(...)            # socket created
    ...wrap TLS...
    sock.sendall(handshake.encode())                # may raise, no close
    response_headers = self._read_http_response_headers(sock)   # may raise, no close
    if "101" not in response_headers.split("\r\n", 1)[0]:
        sock.close(); raise ConnectionError(...)    # closes
    self._send_websocket_message(sock, ...)         # may raise, no close
    try:
        for opcode, payload in self._recv_websocket_messages(sock):
            if opcode == 0x1: yield ...
            elif opcode == 0x8: break
            elif opcode == 0x9: self._send_websocket_frame(sock, 0xA, payload)
    finally:
        sock.close()                                # closes

The socket world is explicit: whether each send succeeds, what the
handshake read returns (or that it raises), and the sequence of frame
receive outcomes. Yields are recorded as the raw text-frame payloads
(the driver maps `_normalize_message` over their decoded text; that map
neither adds nor removes yields, which is all the checked properties
use). -/

/-- A decoded inbound or outbound frame: opcode and payload bytes. -/
structure WsFrame where
  opcode : Nat
  payload : List Nat
deriving DecidableEq

/-- One `_recv_websocket_messages` step: a decoded frame, or
`ConnectionError` from `_recv_exact`. -/
inductive RecvResult where
  | frame (f : WsFrame)
  | connError
deriving DecidableEq

/-- Outcome of the receive loop: payloads of yielded text frames, frames
sent from inside the loop, and whether the loop ended without an
exception. -/
structure LoopState where
  yields : List (List Nat)
  sends : List WsFrame
  ok : Bool
deriving DecidableEq

/-- The receive loop of `_stream_websocket`. `budget = some n` models a
caller that stops consuming (closes the generator) after `n` more
messages; `none` is a caller that consumes everything. An exhausted or
failed receive is an exception (`ok = false`); a close frame (0x8)
breaks cleanly; a ping (0x9) sends one pong (0xA) with the same payload
and yields nothing; other non-text opcodes are ignored. -/
def wsLoopTake : Option Nat → List RecvResult → LoopState
  | some 0, _ => ⟨[], [], true⟩
  | _, [] => ⟨[], [], false⟩
  | _, .connError :: _ => ⟨[], [], false⟩
  | budget, .frame f :: rest =>
      if f.opcode = 0x1 then
        let s := wsLoopTake (budget.map (· - 1)) rest
        ⟨f.payload :: s.yields, s.sends, s.ok⟩
      else if f.opcode = 0x8 then ⟨[], [], true⟩
      else if f.opcode = 0x9 then
        let s := wsLoopTake budget rest
        ⟨s.yields, ⟨0xA, f.payload⟩ :: s.sends, s.ok⟩
      else
        wsLoopTake budget rest

/-- The receive loop with a caller that consumes every message. -/
def wsLoop (rs : List RecvResult) : LoopState :=
  wsLoopTake none rs

/-- Everything before the first `\r\n` (Python
`response_headers.split("\r\n", 1)[0]`). -/
def firstLineCRLF : List Char → List Char
  | [] => []
  | '\r' :: '\n' :: _ => []
  | c :: rest => c :: firstLineCRLF rest

/-- Substring containment. -/
def hasSubstr (needle : List Char) : List Char → Bool
  | [] => leadMatch needle []
  | c :: rest => leadMatch needle (c :: rest) || hasSubstr needle rest

/-- `"101" in response_headers.split("\r\n", 1)[0]`. -/
def contains101 (headers : String) : Bool :=
  hasSubstr "101".toList (firstLineCRLF headers.toList)

/-- The socket world one `_stream_websocket` call runs against: whether
the handshake `sendall` succeeds, what the handshake response read
produces (`none`: it raises), whether the question-frame `sendall`
succeeds, and the frame receive outcomes. -/
structure WsWorld where
  hsSendOk : Bool
  headers : Option String
  qSendOk : Bool
  recvs : List RecvResult

/-- Observable outcome of one `_stream_websocket` call: yielded text
payloads, sent frames, whether `sock.close()` ran, and whether the call
ended in an exception. -/
structure WsRun where
  yields : List (List Nat)
  sends : List WsFrame
  closed : Bool
  errored : Bool
deriving DecidableEq

/-- `_stream_websocket` over an explicit socket world, after the socket
has been created. `questionPayload` is the encoded
`{"question": ...}` text sent as the single outbound message;
`takes` is the caller's consumption budget (as in `wsLoopTake`). -/
def streamWebsocket (w : WsWorld) (questionPayload : List Nat)
    (takes : Option Nat) : WsRun :=
  if ¬ w.hsSendOk then ⟨[], [], false, true⟩
  else
    match w.headers with
    | none => ⟨[], [], false, true⟩
    | some hdrs =>
        if ¬ contains101 hdrs then ⟨[], [], true, true⟩
        else if ¬ w.qSendOk then ⟨[], [], false, true⟩
        else
          let s := wsLoopTake takes w.recvs
          ⟨s.yields, ⟨0x1, questionPayload⟩ :: s.sends, true, !s.ok⟩

/-! ## Claim-C4 reference rule

The claim says the speaker/body is the value of the first key that is
*present with a non-null value*. This definition follows that wording
(not the code), to compare against the code's `or` chains. -/

/-- Value of the first key in `keys` present in `kvs` with a non-null
value (the selection rule as the claim words it). -/
def specFirstPresentNonNull (kvs : List (String × JVal)) :
    List String → Option JVal
  | [] => none
  | k :: ks =>
      match lookupKey kvs k with
      | some .null => specFirstPresentNonNull kvs ks
      | some v => some v
      | none => specFirstPresentNonNull kvs ks

/-- First truthy value among the looked-up keys, else the plain lookup
of the final key (what a Python `a or b or c or d` over `dict.get`
results evaluates to). -/
def firstTruthyOr (kvs : List (String × JVal)) (keys : List String)
    (lastKey : String) : JVal :=
  (((keys.map (pyGet kvs)).find? truthy).getD (pyGet kvs lastKey))

/-! ## Theorems -/

theorem maskFrom_maskFrom (k : MaskKey) (p : List Nat) :
    ∀ i, maskFrom k i (maskFrom k i p) = p := by
  induction p with
  | nil => intro i; rfl
  | cons b bs ih =>
      intro i
      simp [maskFrom, Nat.xor_assoc, Nat.xor_self, ih]

theorem toBytesBE_length (n L : Nat) : (toBytesBE n L).length = n := by
  induction n generalizing L with
  | zero => rfl
  | succ n ih => simp [toBytesBE, ih]

theorem fromBytesBE_toBytesBE (n L : Nat) (h : L < 256 ^ n) :
    fromBytesBE (toBytesBE n L) = L := by
  induction n generalizing L with
  | zero =>
      interval_cases L
      rfl
  | succ n ih =>
      have hdiv : L / 256 < 256 ^ n := by
        apply Nat.div_lt_of_lt_mul
        calc L < 256 ^ (n + 1) := h
        _ = 256 * 256 ^ n := by ring
      have hrec := ih (L / 256) hdiv
      simp only [toBytesBE, fromBytesBE] at hrec ⊢
      rw [List.foldl_append]
      simp only [List.foldl_cons, List.foldl_nil, hrec]
      omega

theorem lenField_low_byte (L : Nat) (h : L < 126) :
    ((0x80 : Nat) ||| L) &&& 0x7F = L ∧ L &&& 0x7F = L := by
  revert h
  revert L
  decide

theorem decode_encode_lenField (mask : Bool) (L : Nat) (extra : List Nat)
    (h : L < 2 ^ 64) :
    decodeLenField (encodeLenField mask L ++ extra) = some L := by
  by_cases h126 : L < 126
  · have hlow := lenField_low_byte L h126
    have h127 : L ≠ 126 ∧ L ≠ 127 := by omega
    cases mask <;>
      simp [encodeLenField, decodeLenField, h126, hlow.1, hlow.2, h127.1, h127.2]
  · have e1 : ((126 : Nat) &&& 127) = 126 := rfl
    have e2 : ((254 : Nat) &&& 127) = 126 := rfl
    have e3 : ((255 : Nat) &&& 127) = 127 := rfl
    have e4 : ((127 : Nat) &&& 127) = 127 := rfl
    by_cases h16 : L < 2 ^ 16
    · have h16' : L < 65536 := by omega
      have htake : (toBytesBE 2 L ++ extra).take 2 = toBytesBE 2 L := by
        have := List.take_left (toBytesBE 2 L) extra
        rwa [toBytesBE_length] at this
      have hlen : 2 ≤ (toBytesBE 2 L).length + extra.length := by
        rw [toBytesBE_length]; omega
      have hrt : fromBytesBE (toBytesBE 2 L) = L :=
        fromBytesBE_toBytesBE 2 L (by omega)
      cases mask <;>
        simp [encodeLenField, decodeLenField, h126, h16', htake, hrt, hlen, e1, e2]
    · have h16' : ¬ L < 65536 := by omega
      have htake : (toBytesBE 8 L ++ extra).take 8 = toBytesBE 8 L := by
        have := List.take_left (toBytesBE 8 L) extra
        rwa [toBytesBE_length] at this
      have hlen : 8 ≤ (toBytesBE 8 L).length + extra.length := by
        rw [toBytesBE_length]; omega
      have hrt : fromBytesBE (toBytesBE 8 L) = L :=
        fromBytesBE_toBytesBE 8 L (by omega)
      cases mask <;>
        simp [encodeLenField, decodeLenField, h126, h16', htake, hrt, hlen, e3, e4]

/-- C1: masking a payload with a 4-byte key (XOR of byte `i` with
`key[i % 4]`, as in `_send_websocket_frame`) and then unmasking with the
same key (the identical expression in `_recv_websocket_messages`)
returns the payload unchanged, for every payload and key. -/
theorem claim_C1_mask_unmask_roundtrip (k : MaskKey) (p : List Nat) :
    maskPayload k (maskPayload k p) = p :=
  maskFrom_maskFrom k p 0

/-- C2: for every payload length `L` (representable at all, i.e. below
`2^64`), the encoder selects the minimal length-field variant among
7-bit / 16-bit / 64-bit that can represent `L` (its output has exactly
`1 + extBytes` bytes), and the decoder applied to the encoded length
field (followed by any further stream bytes) reproduces `L` exactly. -/
theorem claim_C2_length_field_minimal_roundtrip (mask : Bool) (L : Nat)
    (extra : List Nat) (h : L < 2 ^ 64) :
    (chosenVariant L).canRepresent L ∧
    (∀ v : LenVariant, v.canRepresent L → (chosenVariant L).extBytes ≤ v.extBytes) ∧
    (encodeLenField mask L).length = 1 + (chosenVariant L).extBytes ∧
    decodeLenField (encodeLenField mask L ++ extra) = some L := by
  refine ⟨?_, ?_, ?_, decode_encode_lenField mask L extra h⟩
  · by_cases h126 : L < 126
    · unfold chosenVariant
      rw [if_pos h126]
      exact h126
    · by_cases h16 : L < 2 ^ 16
      · unfold chosenVariant
        rw [if_neg h126, if_pos h16]
        exact h16
      · unfold chosenVariant
        rw [if_neg h126, if_neg h16]
        exact h
  · intro v hv
    by_cases h126 : L < 126
    · unfold chosenVariant
      rw [if_pos h126]
      exact Nat.zero_le _
    · by_cases h16 : L < 2 ^ 16
      · unfold chosenVariant
        rw [if_neg h126, if_pos h16]
        cases v with
        | b7 => exact absurd hv h126
        | b16 => exact Nat.le_refl _
        | b64 => decide
      · unfold chosenVariant
        rw [if_neg h126, if_neg h16]
        cases v with
        | b7 => exact absurd hv h126
        | b16 => exact absurd hv h16
        | b64 => exact Nat.le_refl _
  · by_cases h126 : L < 126
    · simp only [encodeLenField, chosenVariant]
      rw [if_pos h126, if_pos h126]
      rfl
    · by_cases h16 : L < 2 ^ 16
      · simp only [encodeLenField, chosenVariant]
        rw [if_neg h126, if_neg h126, if_pos h16, if_pos h16]
        simp [toBytesBE_length, LenVariant.extBytes]
      · simp only [encodeLenField, chosenVariant]
        rw [if_neg h126, if_neg h126, if_neg h16, if_neg h16]
        simp [toBytesBE_length, LenVariant.extBytes]

/-- Witness for C2 at the concrete length 300 (16-bit variant). -/
theorem claim_C2_length_field_minimal_roundtrip_witness :
    (chosenVariant 300).canRepresent 300 ∧
    (∀ v : LenVariant, v.canRepresent 300 → (chosenVariant 300).extBytes ≤ v.extBytes) ∧
    (encodeLenField true 300).length = 1 + (chosenVariant 300).extBytes ∧
    decodeLenField (encodeLenField true 300 ++ [7, 7, 7]) = some 300 :=
  claim_C2_length_field_minimal_roundtrip true 300 [7, 7, 7] (by norm_num)

/-- C3 (counterexample): the original claim — socket closed on *every*
exception after creation, including during the handshake read — is
false: when `_read_http_response_headers` raises (world: handshake send
ok, read raises, question send would succeed, no frames), the run ends
in an exception with the socket left unclosed, because the
`try/finally` only wraps the receive loop. -/
theorem claim_C3_counterexample :
    (streamWebsocket ⟨true, none, true, []⟩ [1] none).closed = false ∧
    (streamWebsocket ⟨true, none, true, []⟩ [1] none).errored = true := by
  constructor <;> rfl

/-- C3 (amended): the socket is closed on every exit path reached after
the handshake response has been fully read: the failed-101 check path,
and — once the outbound question frame was sent — normal exhaustion,
close frames, caller termination and every receive-loop exception
(`sock.close()` in the `finally`). Exceptions during the handshake
send, the handshake response read, or the question-frame send leave the
socket unclosed (see the counterexample). -/
theorem claim_C3_socket_closed_after_handshake_read (w : WsWorld)
    (qp : List Nat) (takes : Option Nat) (hdrs : String)
    (hh : w.headers = some hdrs) (hs : w.hsSendOk = true)
    (hq : contains101 hdrs = false ∨ w.qSendOk = true) :
    (streamWebsocket w qp takes).closed = true := by
  rcases hq with hq | hq
  · simp [streamWebsocket, hs, hh, hq]
  · by_cases hc : contains101 hdrs <;> simp [streamWebsocket, hs, hh, hq, hc]

/-- Witness for the amended C3: a 101 handshake followed by an abruptly
closed stream (receive raises) still closes the socket. -/
theorem claim_C3_socket_closed_after_handshake_read_witness :
    (streamWebsocket ⟨true, some "HTTP/1.1 101 Switching Protocols\r\n\r\n", true, []⟩
      [1] none).closed = true :=
  claim_C3_socket_closed_after_handshake_read _ [1] none
    "HTTP/1.1 101 Switching Protocols\r\n\r\n" rfl rfl (Or.inr rfl)

/-- C5: in the receive loop, every ping frame (0x9) sends exactly one
pong frame (0xA) with the identical payload and yields nothing, and a
close frame (0x8) terminates the sequence cleanly (no yields, no sends,
no error), whatever follows it. -/
theorem claim_C5_ping_pong_close (p : List Nat) (rest : List RecvResult) :
    (wsLoop (.frame ⟨0x9, p⟩ :: rest)).sends = ⟨0xA, p⟩ :: (wsLoop rest).sends ∧
    (wsLoop (.frame ⟨0x9, p⟩ :: rest)).yields = (wsLoop rest).yields ∧
    (wsLoop (.frame ⟨0x9, p⟩ :: rest)).ok = (wsLoop rest).ok ∧
    wsLoop (.frame ⟨0x8, p⟩ :: rest) = ⟨[], [], true⟩ := by
  refine ⟨?_, ?_, ?_, ?_⟩ <;> simp [wsLoop, wsLoopTake]

/-- C6: the three-line HTTP example yields exactly the messages
`"hello"` then `"world"` (the blank line produces nothing); in general a
line that strips to empty is skipped, and a non-empty stripped line
starting with `data:` has the prefix and following whitespace removed
before normalization. -/
theorem claim_C6_http_lines (line : String) :
    (processLines
        ["data: \x7b\"text\":\"hello\"\x7d", "", "data: \x7b\"text\":\"world\"\x7d"]).map
      AgUIMessage.text = ["hello", "world"] ∧
    (pyStrip line = "" → processLine line = none) ∧
    (pyStrip line ≠ "" → strStartsWith (pyStrip line) "data:" = true →
      processLine line
        = some (normalizeMessage (pyStrip (strDrop (pyStrip line) 5)))) := by
  refine ⟨rfl, ?_, ?_⟩
  · intro h
    simp [processLine, h]
  · intro h1 h2
    simp [processLine, h1, h2]

/-- Witness for C6 at a blank line and at the first example line. -/
theorem claim_C6_http_lines_witness :
    processLine "  " = none ∧
    processLine "data: \x7b\"text\":\"hello\"\x7d"
      = some (normalizeMessage
          (pyStrip (strDrop (pyStrip "data: \x7b\"text\":\"hello\"\x7d") 5))) :=
  ⟨(claim_C6_http_lines "  ").2.1 rfl,
   (claim_C6_http_lines "data: \x7b\"text\":\"hello\"\x7d").2.2 (by decide) (by decide)⟩

/-- C7: a string that fails to parse as JSON (concretely `"not json"`)
normalizes to a message whose `text` and `raw` are the original string;
the normalizer returns normally on every such input. -/
theorem claim_C7_malformed_json_fallback :
    loads "not json" = none ∧
    ∀ s : String, loads s = none →
      (normalizeMessage s).text = s ∧ (normalizeMessage s).raw = .str s := by
  refine ⟨rfl, ?_⟩
  intro s hs
  simp [normalizeMessage, hs]

/-- Witness for C7 at the concrete input `"not json"`. -/
theorem claim_C7_malformed_json_fallback_witness :
    (normalizeMessage "not json").text = "not json" ∧
    (normalizeMessage "not json").raw = .str "not json" :=
  claim_C7_malformed_json_fallback.2 "not json" claim_C7_malformed_json_fallback.1

/-- C8: a URL whose scheme is none of `http`, `https`, `ws`, `wss`
makes `stream` raise `ValueError` before doing any I/O: the dispatch
lands in the error branch, which opens no socket. -/
theorem claim_C8_unsupported_scheme (url : String)
    (h : extractScheme url ∉ (["http", "https", "ws", "wss"] : List String)) :
    streamDispatch url = .configError ∧
    socketsOpened (streamDispatch url) = 0 := by
  have h1 : ¬ (extractScheme url = "ws" ∨ extractScheme url = "wss") := by
    intro hc
    rcases hc with hc | hc <;> simp [hc] at h
  have h2 : ¬ (extractScheme url = "http" ∨ extractScheme url = "https") := by
    intro hc
    rcases hc with hc | hc <;> simp [hc] at h
  refine ⟨?_, ?_⟩ <;> simp [streamDispatch, h1, h2, socketsOpened]

/-- Witness for C8 at `ftp://host`. -/
theorem claim_C8_unsupported_scheme_witness :
    streamDispatch "ftp://host" = .configError ∧
    socketsOpened (streamDispatch "ftp://host") = 0 :=
  claim_C8_unsupported_scheme "ftp://host" (by decide)

theorem pyOr_chain_eq (a b c d : JVal) :
    pyOr (pyOr (pyOr a b) c) d = (([a, b, c].find? truthy).getD d) := by
  by_cases ta : truthy a <;> by_cases tb : truthy b <;> by_cases tc : truthy c <;>
    simp [pyOr, List.find?, ta, tb, tc]

/-- C4 (counterexample): the claim's selection rule — first key present
with a non-null value — disagrees with the code. On
`{"user": "", "sender": "bob", "message": "hi"}` the claim selects the
`user` value `""` (present, non-null), but the code's `or` chain skips
the falsy `""` and selects `"bob"`: the normalized text is
`"bob: hi"`. -/
theorem claim_C4_counterexample :
    specFirstPresentNonNull
        [("user", JVal.str ""), ("sender", JVal.str "bob"), ("message", JVal.str "hi")]
        ["user", "sender", "name", "role"] = some (JVal.str "") ∧
    speakerOf [("user", JVal.str ""), ("sender", JVal.str "bob"), ("message", JVal.str "hi")]
      = JVal.str "bob" ∧
    (normalizeMessage "\x7b\"user\": \"\", \"sender\": \"bob\", \"message\": \"hi\"\x7d").text
      = "bob: hi" ∧
    JVal.str "bob" ≠ JVal.str "" := by
  refine ⟨rfl, rfl, rfl, ?_⟩
  intro h
  injection h with h2
  exact absurd h2 (by decide)

/-- C4 (amended): the speaker is the first *truthy* value among the keys
`user`, `sender`, `name`, `role` (in that order), defaulting to the
plain lookup of `role`; the body chain likewise over `message`,
`content`, `text`, `body` defaulting to the lookup of `body`; and the
body is replaced by the full mapping re-serialized as JSON exactly when
that chain result is null/`None` (all body keys absent, null, or falsy
with a final `body` lookup of null). -/
theorem claim_C4_truthiness_selection (kvs : List (String × JVal)) :
    speakerOf kvs = firstTruthyOr kvs ["user", "sender", "name"] "role" ∧
    bodyChainOf kvs = firstTruthyOr kvs ["message", "content", "text"] "body" ∧
    (bodyChainOf kvs = .null → resolvedBody kvs = .str (dumps (.obj kvs))) ∧
    (∀ b : JVal, bodyChainOf kvs = b → b ≠ .null →
      resolvedBody kvs = if isStructured b then .str (dumps b) else b) := by
  refine ⟨?_, ?_, ?_, ?_⟩
  · simp [speakerOf, firstTruthyOr, pyOr_chain_eq]
  · simp [bodyChainOf, firstTruthyOr, pyOr_chain_eq]
  · intro h
    simp [resolvedBody, h]
  · intro b hb hnull
    cases b with
    | null => exact absurd rfl hnull
    | bool x => simp [resolvedBody, hb, isStructured]
    | num n => simp [resolvedBody, hb, isStructured]
    | str s => simp [resolvedBody, hb, isStructured]
    | arr xs => simp [resolvedBody, hb, isStructured]
    | obj o => simp [resolvedBody, hb, isStructured]

/-- Witness for the amended C4: on `{"user": "", "sender": "bob"}` the
speaker chain picks the truthy `"bob"`, and with no body key present the
full mapping is re-serialized. -/
theorem claim_C4_truthiness_selection_witness :
    speakerOf [("user", JVal.str ""), ("sender", JVal.str "bob")]
      = firstTruthyOr [("user", JVal.str ""), ("sender", JVal.str "bob")]
          ["user", "sender", "name"] "role" ∧
    resolvedBody [("user", JVal.str ""), ("sender", JVal.str "bob")]
      = .str (dumps (.obj [("user", JVal.str ""), ("sender", JVal.str "bob")])) :=
  ⟨(claim_C4_truthiness_selection _).1,
   (claim_C4_truthiness_selection _).2.2.1 rfl⟩

/-- C9: when the selected body value is itself structured (a mapping or
sequence) and no truthy speaker is present, the normalized text is the
body's `json.dumps` serialization (single-line, default separators);
concretely `{"content": {"a": 1}}` gives text `{"a": 1}`. -/
theorem claim_C9_structured_body_serialized (kvs : List (String × JVal)) :
    (normalizeMessage "\x7b\"content\": \x7b\"a\": 1\x7d\x7d").text = "\x7b\"a\": 1\x7d" ∧
    (truthy (speakerOf kvs) = false → isStructured (bodyChainOf kvs) = true →
      (normalizeParsed (.obj kvs)).text = dumps (bodyChainOf kvs)) := by
  refine ⟨rfl, ?_⟩
  intro hsp hb
  cases hbc : bodyChainOf kvs with
  | null => rw [hbc] at hb; simp [isStructured] at hb
  | bool x => rw [hbc] at hb; simp [isStructured] at hb
  | num n => rw [hbc] at hb; simp [isStructured] at hb
  | str s => rw [hbc] at hb; simp [isStructured] at hb
  | arr xs => simp [normalizeParsed, fmtText, hsp, resolvedBody, hbc, isStructured, pyStr]
  | obj o => simp [normalizeParsed, fmtText, hsp, resolvedBody, hbc, isStructured, pyStr]

/-- Witness for C9 at `{"content": {"a": 1}}` in decoded form. -/
theorem claim_C9_structured_body_serialized_witness :
    (normalizeParsed (.obj [("content", .obj [("a", .num 1)])])).text
      = dumps (bodyChainOf [("content", .obj [("a", .num 1)])]) :=
  (claim_C9_structured_body_serialized [("content", .obj [("a", .num 1)])]).2 rfl rfl

/-- C10: a line that strips to exactly `data:` is not skipped — the
emptiness check happens before the prefix is stripped — so the empty
remainder is normalized: `json.loads("")` fails and the yielded message
has `text = ""` and `raw = ""`. -/
theorem claim_C10_data_prefix_only_line (line : String)
    (h : pyStrip line = "data:") :
    processLine line = some ⟨"", JVal.str ""⟩ := by
  simp only [processLine, h]
  rfl

/-- Witness for C10 at the line `" data: "`. -/
theorem claim_C10_data_prefix_only_line_witness :
    processLine " data: " = some ⟨"", JVal.str ""⟩ :=
  claim_C10_data_prefix_only_line " data: " (by rfl)
